import Mathlib

/-!
Verification development for the repository kundajelab/cultivator.

The repository consists of a single source file, src/setup.py, a
setuptools packaging manifest.  This file embeds that manifest at two
levels of abstraction:

* as raw text (`sourceLines` / `sourceText`), transliterated byte for
  byte from src/setup.py (the file has no trailing newline, so joining
  the 16 textual lines with a newline reproduces it exactly);
* as a small Python abstract syntax (`Stmt`, `PyExpr`, `PyValue`) with
  an evaluator (`evalExpr`, `evalSetup`) that produces the metadata
  mapping the `setup` call declares.

Theorems about the claims follow the definitions.
-/

/-- Python values produced by evaluating the manifest's expressions:
strings and lists of strings (the only value shapes the manifest
builds). -/
inductive PyValue where
  | str (s : String)
  | strList (xs : List String)
  deriving DecidableEq, Repr

/-- Python expressions in the positions the manifest uses: string
literals, list displays of string literals, and (for contrast, to state
environment-independence) a read of an external environment key.  The
manifest itself contains only the two literal forms. -/
inductive PyExpr where
  | strLit (s : String)
  | listLit (xs : List String)
  | envRead (key : String)
  deriving DecidableEq, Repr

/-- Whether an expression is a constant literal (no dependence on the
execution environment). -/
def PyExpr.isLiteral : PyExpr → Bool
  | .strLit _ => true
  | .listLit _ => true
  | .envRead _ => false

/-- An execution environment: everything the interpreter could read
from outside the source text, as a map from keys to strings. -/
def Env : Type := String → String

/-- Evaluate an expression in an environment.  Literals ignore the
environment; an environment read consults it. -/
def evalExpr (env : Env) : PyExpr → PyValue
  | .strLit s => .str s
  | .listLit xs => .strList xs
  | .envRead k => .str (env k)

/-- Top-level Python statements, as needed to classify the manifest:
an import-from, a function definition, a class definition, or an
expression statement calling a named function with keyword arguments. -/
inductive Stmt where
  | importFrom (module : String) (names : List String)
  | defStmt (name : String)
  | classStmt (name : String)
  | exprCall (func : String) (kwargs : List (String × PyExpr))
  deriving DecidableEq, Repr

/-- Whether a statement is a function or class definition. -/
def Stmt.isDefOrClass : Stmt → Bool
  | .defStmt _ => true
  | .classStmt _ => true
  | _ => false

/-- Whether a statement is a call expression. -/
def Stmt.isCall : Stmt → Bool
  | .exprCall _ _ => true
  | _ => false

/-- The keyword arguments of the `setup(...)` call in src/setup.py,
transliterated in source order (lines 5 to 15 of the file). -/
def setupKwargs : List (String × PyExpr) :=
  [ ("name", .strLit "cultivator"),
    ("version", .strLit "0.0.0"),
    ("author", .strLit "Jacob Schreiber"),
    ("author_email", .strLit "jmschreiber91@gmail.com"),
    ("packages", .listLit ["cultivator"]),
    ("url", .strLit "http://pypi.python.org/pypi/cultivator/"),
    ("license", .strLit "LICENSE.txt"),
    ("description", .strLit "A tool for generating covariate-matched and diversity-maximizing subsets. Generally useful, for built with genomic applications in mind."),
    ("install_requires", .listLit ["numpy >= 1.14.2"]) ]

/-- The manifest src/setup.py as a sequence of top-level statements:
one import of `setup` from `setuptools`, then one call to `setup`. -/
def manifest : List Stmt :=
  [ .importFrom "setuptools" ["setup"],
    .exprCall "setup" setupKwargs ]

/-- Evaluating the `setup` call in an environment yields the metadata
mapping: each keyword argument paired with its evaluated value. -/
def evalSetup (env : Env) : List (String × PyValue) :=
  setupKwargs.map (fun kv => (kv.1, evalExpr env kv.2))

/-- Look up a field in a metadata mapping (first match wins, as in the
keyword-argument mapping of a Python call). -/
def getField (key : String) : List (String × PyValue) → Option PyValue
  | [] => none
  | (k, v) :: rest => if k = key then some v else getField key rest

/-- Look up a keyword argument of the `setup` call by name. -/
def findKwarg (key : String) : List (String × PyExpr) → Option PyExpr
  | [] => none
  | (k, v) :: rest => if k = key then some v else findKwarg key rest

/-- The list of package names the manifest declares in its `packages`
keyword argument. -/
def declaredPackages : List String :=
  match findKwarg "packages" setupKwargs with
  | some (.listLit xs) => xs
  | _ => []

/-- The list of requirement strings the manifest declares in its
`install_requires` keyword argument. -/
def installRequires : List String :=
  match findKwarg "install_requires" setupKwargs with
  | some (.listLit xs) => xs
  | _ => []

/-- The entry points the manifest declares in an `entry_points` keyword
argument, if any. -/
def declaredEntryPoints : List String :=
  match findKwarg "entry_points" setupKwargs with
  | some (.listLit xs) => xs
  | _ => []

/-- Split a character list at the first occurrence of the separator
`sep`, returning the parts before and after it, or `none` when the
separator does not occur. -/
def splitAtSep (sep : List Char) : List Char → Option (List Char × List Char)
  | [] => none
  | c :: rest =>
    if sep.isPrefixOf (c :: rest) then some ([], (c :: rest).drop sep.length)
    else
      match splitAtSep sep rest with
      | some (l, r) => some (c :: l, r)
      | none => none

/-- Parse a setuptools requirement string of the form
`pkg >= minVersion` (the one constraint form the manifest uses) into
the package name and the declared minimum version. -/
def parseRequirement (r : String) : Option (String × String) :=
  match splitAtSep (" >= ".toList) r.toList with
  | some (p, v) => some (String.mk p, String.mk v)
  | none => none

/-- The relative paths of the files present in the supplied repository
source tree.  The repository supplies exactly one file, setup.py. -/
def repoFiles : List String := ["setup.py"]

/-- Whether a repository path is, or lies inside, a Python package or
module named `pkg`: the path is the package directory itself, a path
under it, or the single-file module `pkg.py`. -/
def pathBelongsTo (pkg f : String) : Bool :=
  f == pkg || (pkg ++ "/").toList.isPrefixOf f.toList || f == pkg ++ ".py"

/-- The single-quote character (code point 39), used when spelling out
the raw source lines. -/
def sqch : String := (Char.ofNat 39).toString

/-- The 16 textual lines of src/setup.py, transliterated byte for byte
(the quote character is spliced in as `sqch`).  The file ends without a
trailing newline, so it has 15 newline-terminated lines. -/
def sourceLines : List String :=
  [ "",
    "from setuptools " ++ "import setup",
    "",
    "setup(",
    "    name=" ++ sqch ++ "cultivator" ++ sqch ++ ",",
    "    version=" ++ sqch ++ "0.0.0" ++ sqch ++ ",",
    "    author=" ++ sqch ++ "Jacob Schreiber" ++ sqch ++ ",",
    "    author_email=" ++ sqch ++ "jmschreiber91@gmail.com" ++ sqch ++ ",",
    "    packages=[" ++ sqch ++ "cultivator" ++ sqch ++ "],",
    "    url=" ++ sqch ++ "http://pypi.python.org/pypi/cultivator/" ++ sqch ++ ",",
    "    license=" ++ sqch ++ "LICENSE.txt" ++ sqch ++ ",",
    "    description=" ++ sqch ++ "A tool for generating covariate-matched and diversity-maximizing subsets. Generally useful, for built with genomic applications in mind." ++ sqch ++ ",",
    "    install_requires=[",
    "        \"numpy >= 1.14.2\"",
    "    ],",
    ")" ]

/-- The full text of src/setup.py: its lines joined by newlines, with
no trailing newline, exactly as in the file. -/
def sourceText : String := String.intercalate "\n" sourceLines

/-- Count the newline characters of a string: the number of complete
(newline-terminated) lines, the POSIX and `wc -l` line count. -/
def countNewlines (s : String) : Nat :=
  s.toList.countP (fun c => c = Char.ofNat 10)

/-- Strip the leading space indentation of a source line. -/
def stripIndent (s : String) : List Char :=
  s.toList.dropWhile (fun c => c = ' ')

/-- Whether a source line opens a core executable-logic construct: a
function or class definition, a loop, a conditional, a with or try
block, or a lambda, judged by its leading keyword after indentation. -/
def isLogicLine (l : String) : Bool :=
  let t := stripIndent l
  ["def ", "class ", "for ", "while ", "if ", "elif ", "else", "with ",
   "try", "except", "lambda", "return", "yield"].any
    (fun kw => kw.toList.isPrefixOf t)

/-- The metadata mapping that every evaluation of the manifest
produces: each of the nine fields paired with its constant value. -/
def canonicalMetadata : List (String × PyValue) :=
  [ ("name", .str "cultivator"),
    ("version", .str "0.0.0"),
    ("author", .str "Jacob Schreiber"),
    ("author_email", .str "jmschreiber91@gmail.com"),
    ("packages", .strList ["cultivator"]),
    ("url", .str "http://pypi.python.org/pypi/cultivator/"),
    ("license", .str "LICENSE.txt"),
    ("description", .str "A tool for generating covariate-matched and diversity-maximizing subsets. Generally useful, for built with genomic applications in mind."),
    ("install_requires", .strList ["numpy >= 1.14.2"]) ]

/-- Claim C1: the package metadata produced by evaluating the manifest
declares the package name to be exactly the string "cultivator", in
every execution environment. -/
theorem name_field_is_cultivator (env : Env) :
    getField "name" (evalSetup env) = some (PyValue.str "cultivator") := rfl

/-- Claim C2: the dependency list declared by the manifest contains
exactly one entry, the requirement string "numpy >= 1.14.2", which
parses to the package numpy with declared minimum version 1.14.2. -/
theorem install_requires_single_numpy (env : Env) :
    getField "install_requires" (evalSetup env)
      = some (PyValue.strList ["numpy >= 1.14.2"]) ∧
    installRequires.length = 1 ∧
    installRequires.map parseRequirement = [some ("numpy", "1.14.2")] :=
  ⟨rfl, rfl, by decide⟩

/-- Claim C3: the package metadata produced by evaluating the manifest
declares the version to be exactly the string "0.0.0", in every
execution environment. -/
theorem version_field_is_0_0_0 (env : Env) :
    getField "version" (evalSetup env) = some (PyValue.str "0.0.0") := rfl

set_option maxRecDepth 20000 in
/-- Claim C4: the entire visible source artifact is exactly 15
(newline-terminated, POSIX `wc -l` convention) lines of declarative
build metadata, and no line of it opens a core executable-logic
construct (function or class definition, loop, conditional, with or
try block, lambda, return, or yield). -/
theorem source_is_fifteen_metadata_lines :
    countNewlines sourceText = 15 ∧
    ∀ l ∈ sourceLines, isLogicLine l = false := by decide

/-- Claim C5: the source contains no module, class, or function
definitions: no top-level statement of the manifest is a def or class
definition, the only call statement is the single call to the `setup`
function imported from setuptools, and every keyword argument of that
call is a constant literal. -/
theorem manifest_has_no_definitions :
    (∀ s ∈ manifest, s.isDefOrClass = false) ∧
    manifest.filter Stmt.isCall = [Stmt.exprCall "setup" setupKwargs] ∧
    manifest.head? = some (Stmt.importFrom "setuptools" ["setup"]) ∧
    (∀ kv ∈ setupKwargs, kv.2.isLiteral = true) := by decide

/-- Claim C6 counterexample: the claim that the packaging fields are
exactly name, version, author, license, and dependency list is false:
the manifest also passes the field author_email, which is none of the
five listed fields. -/
theorem packaging_fields_counterexample :
    "author_email" ∈ setupKwargs.map Prod.fst ∧
    "author_email" ∉ ["name", "version", "author", "license",
                      "install_requires"] := by decide

/-- Claim C6 (amended): the packaging fields carried by the manifest
are exactly name, version, author, author_email, packages, url,
license, description, and install_requires, in that order; every field
value is a constant literal, and evaluation of the fields is identical
in any two environments (the fields carry no runtime semantics). -/
theorem packaging_fields_exact :
    setupKwargs.map Prod.fst =
      ["name", "version", "author", "author_email", "packages", "url",
       "license", "description", "install_requires"] ∧
    (∀ kv ∈ setupKwargs, kv.2.isLiteral = true) ∧
    ∀ e1 e2 : Env, evalSetup e1 = evalSetup e2 :=
  ⟨by decide, by decide, fun _ _ => rfl⟩

/-- Claim C7: the manifest's license field refers to the text file
"LICENSE.txt", and no file present in the supplied repository source is
that referenced license file. -/
theorem license_file_not_included (env : Env) :
    getField "license" (evalSetup env) = some (PyValue.str "LICENSE.txt") ∧
    ∀ f ∈ repoFiles, f ≠ "LICENSE.txt" :=
  ⟨rfl, by decide⟩

/-- Claim C8: the manifest defines no command-line interface: the
`setup` call passes no entry_points, scripts, or console_scripts
keyword argument, and the entry points it declares are none. -/
theorem no_cli_declared :
    "entry_points" ∉ setupKwargs.map Prod.fst ∧
    "scripts" ∉ setupKwargs.map Prod.fst ∧
    "console_scripts" ∉ setupKwargs.map Prod.fst ∧
    declaredEntryPoints = [] := by decide

/-- Claim C9: the manifest declares the Python package "cultivator" in
its packages field, yet no file of the supplied source is, or lies
inside, a package directory or module named "cultivator". -/
theorem declared_package_absent_from_source :
    declaredPackages = ["cultivator"] ∧
    ∀ f ∈ repoFiles, pathBelongsTo "cultivator" f = false := by decide

/-- Claim C10: evaluating the manifest is deterministic and
input-independent: every keyword argument of the `setup` call is a
constant literal, and evaluation in any environment produces the same
metadata mapping `canonicalMetadata`. -/
theorem eval_manifest_deterministic :
    (∀ kv ∈ setupKwargs, kv.2.isLiteral = true) ∧
    ∀ env : Env, evalSetup env = canonicalMetadata :=
  ⟨by decide, fun _ => rfl⟩
